import Mathlib

/-!
Verification of the ocypod job-queue server against its specification.

The repository's visible source is the server entry point
(`src/bin/ocypod-server.rs`): CLI/config parsing, worker-pool startup,
monitor startup and HTTP route wiring.  That file is embedded directly
below (`parseConfigFromCliArgs`, `runMain`, `appRoutes`).

The Job Store core (enqueue / claim_next / update / heartbeat and the
status state machine) is part of the repository but its source is not
under `src/`; those operations are modelled from the specification
(sections 3, 4.1 and 8), and each such definition is marked
`Modelled from the spec:` in its doc comment.
-/

namespace Ocypod

/-- Modelled from the spec: job status values of the state machine
(section 4.1): `queued -> running -> {completed, failed, cancelled,
timed_out}`, plus the retry path `running -> queued` and the direct
cancel `queued -> cancelled`. -/
inductive Status
  | queued
  | running
  | completed
  | failed
  | cancelled
  | timed_out
deriving DecidableEq, Repr

/-- Modelled from the spec: the terminal states `completed`, `failed`,
`cancelled` and `timed_out` are sinks. -/
def Status.isTerminal : Status → Bool
  | .completed => true
  | .failed => true
  | .cancelled => true
  | .timed_out => true
  | _ => false

/-- Modelled from the spec: the transition table of section 4.1.  Any
transition not in the table is invalid. -/
def validTransition : Status → Status → Bool
  | .queued, .running => true
  | .queued, .cancelled => true
  | .running, .completed => true
  | .running, .failed => true
  | .running, .cancelled => true
  | .running, .timed_out => true
  | .running, .queued => true
  | _, _ => false

/-- Modelled from the spec: error kinds of section 7 that the Job Store
operations can return. -/
inductive JobError
  | UnknownQueue
  | NotFound
  | InvalidTransition
  | InvalidState
  | InvalidSettings
  | StorageUnavailable
deriving DecidableEq, Repr

/-- Modelled from the spec: the authoritative job record (section 3):
owning queue, status, opaque payload and output, tags, timestamps,
retry count, and a snapshot of the queue's retry/timeout settings taken
at creation time. -/
structure Job where
  queue : String
  status : Status
  payload : String
  output : Option String
  tags : List String
  created : Nat
  heartbeat : Option Nat
  ended : Option Nat
  retries : Nat
  timeout : Nat
  retryLimit : Nat
deriving DecidableEq, Repr

/-- Modelled from the spec: per-queue state (section 3): the FIFO
pending list plus the queue's configuration. -/
structure QueueState where
  pending : List Nat
  timeout : Nat
  retryLimit : Nat
  expiry : Nat
deriving DecidableEq, Repr

/-- Modelled from the spec: the external store's state as seen through
the Storage Client: queue records, the authoritative job records keyed
by monotonically-issued integer ID, the next fresh ID, and the tag
index. -/
structure Store where
  queues : String → Option QueueState
  jobs : Nat → Option Job
  nextId : Nat
  tagIndex : String → List Nat

/-- Modelled from the spec: the store's native atomic list-pop
primitive used by `claim_next` (section 4.1): removes and returns the
head of the pending list, or nothing when the list is empty.  Each
invocation is a single atomic step of the external store. -/
def popNext : List Nat → Option (Nat × List Nat)
  | [] => none
  | x :: xs => some (x, xs)

/-- Modelled from the spec: `enqueue(queue, payload, tags)`
(section 4.1): fails with `UnknownQueue` if the queue does not exist;
otherwise atomically allocates a new ID, writes the job record with
status `queued` and a config snapshot copied from the queue's current
settings, appends the ID to the queue's pending list, and inserts the
ID into each requested tag's set. -/
def enqueue (st : Store) (q : String) (payload : String) (tags : List String)
    (now : Nat) : Except JobError (Nat × Store) :=
  match st.queues q with
  | none => .error .UnknownQueue
  | some qs =>
    let id := st.nextId
    let job : Job :=
      { queue := q, status := .queued, payload := payload, output := none,
        tags := tags, created := now, heartbeat := none, ended := none,
        retries := 0, timeout := qs.timeout, retryLimit := qs.retryLimit }
    .ok (id,
      { queues := fun name =>
          if name = q then some { qs with pending := qs.pending ++ [id] }
          else st.queues name,
        jobs := fun n => if n = id then some job else st.jobs n,
        nextId := id + 1,
        tagIndex := fun t =>
          if t ∈ tags then id :: st.tagIndex t else st.tagIndex t })

/-- Modelled from the spec: `claim_next(queue)` (section 4.1):
atomically pops the head of the queue's pending list (FIFO); if
non-empty, transitions the popped job to `running`, stamps
heartbeat = now and returns the full job record; returns nothing (not
an error) if the queue is empty; fails with `UnknownQueue` if the
queue does not exist. -/
def claim_next (st : Store) (q : String) (now : Nat) :
    Except JobError (Option Job × Store) :=
  match st.queues q with
  | none => .error .UnknownQueue
  | some qs =>
    match popNext qs.pending with
    | none => .ok (none, st)
    | some (id, rest) =>
      match st.jobs id with
      | none => .error .StorageUnavailable
      | some j =>
        let j' : Job := { j with status := .running, heartbeat := some now }
        .ok (some j',
          { st with
            queues := fun name =>
              if name = q then some { qs with pending := rest }
              else st.queues name,
            jobs := fun n => if n = id then some j' else st.jobs n })

/-- Modelled from the spec: `heartbeat(job_id)` (section 4.1): fails
with `NotFound` if the job is unknown; fails with `InvalidState` if the
job is not in `running` status; otherwise stamps
last-heartbeat = now. -/
def heartbeat (st : Store) (id : Nat) (now : Nat) : Except JobError Store :=
  match st.jobs id with
  | none => .error .NotFound
  | some j =>
    if j.status = .running then
      .ok { st with
            jobs := fun n =>
              if n = id then some { j with heartbeat := some now }
              else st.jobs n }
    else .error .InvalidState

/-- A sequence of `heartbeat` calls on the same job, one per timestamp
in the list, each applied to the state left by the previous one. -/
def heartbeatN (ts : List Nat) (st : Store) (id : Nat) :
    Except JobError Store :=
  match ts with
  | [] => .ok st
  | t :: rest => (heartbeat st id t).bind (fun st' => heartbeatN rest st' id)

/-- Modelled from the spec: the partial field set handed to `update`
(section 4.1): any of status, output, tags. -/
structure UpdateRequest where
  status : Option Status
  output : Option String
  tags : Option (List String)
deriving DecidableEq, Repr

/-- Modelled from the spec: `update(job_id, partial_fields)`
(section 4.1): fails with `NotFound` if the job is unknown; validates a
requested status transition against the state-machine table and fails
with `InvalidTransition` if not allowed; otherwise updates only the
supplied fields, stamping `ended` on a transition to a terminal state
and re-appending to the pending list with an incremented retry count on
a transition back to `queued`. -/
def update (st : Store) (id : Nat) (req : UpdateRequest) (now : Nat) :
    Except JobError Store :=
  match st.jobs id with
  | none => .error .NotFound
  | some j =>
    match req.status with
    | none =>
      let j' : Job := { j with
        output := match req.output with | some o => some o | none => j.output,
        tags := req.tags.getD j.tags }
      .ok { st with
            jobs := fun n => if n = id then some j' else st.jobs n }
    | some s =>
      if validTransition j.status s then
        let j' : Job :=
          { j with status := s,
                   output := match req.output with
                             | some o => some o
                             | none => j.output,
                   tags := req.tags.getD j.tags,
                   ended := if s.isTerminal then some now else j.ended,
                   retries := if s = .queued then j.retries + 1 else j.retries }
        .ok { st with
              jobs := fun n => if n = id then some j' else st.jobs n,
              queues := fun name =>
                if s = .queued ∧ name = j.queue then
                  match st.queues name with
                  | some qs => some { qs with pending := qs.pending ++ [id] }
                  | none => st.queues name
                else st.queues name }
      else .error .InvalidTransition

/-- The state an `update` call leaves behind: the new store on success,
the old store untouched on failure. -/
def applyUpdate (st : Store) (id : Nat) (req : UpdateRequest) (now : Nat) :
    Store :=
  match update st id req now with
  | .ok st' => st'
  | .error _ => st

/-- The job IDs handed out by `k` successive `claim_next` calls on a
pending list, each call removing the head via the store's atomic pop
primitive `popNext`.  Because every `claim_next` is a single atomic pop
(section 5), any concurrent execution of `k` claim calls is an
interleaving of `k` atomic pops, i.e. exactly this sequence. -/
def claimSeq : Nat → List Nat → List Nat
  | 0, _ => []
  | k + 1, pending =>
    match popNext pending with
    | none => []
    | some (id, rest) => id :: claimSeq k rest

/-- A duration, as the count of whole seconds it contains (the only
view of a duration the entry point uses, via `as_secs`). -/
structure Duration where
  secs : Nat
deriving DecidableEq, Repr

/-- The `[server]` section of the configuration, restricted to the
fields the entry point reads: HTTP worker thread count, shutdown
timeout, and the maximum accepted request body size. -/
structure ServerConfig where
  threads : Option Nat
  shutdown_timeout : Option Duration
  max_body_size : Option Nat
deriving DecidableEq, Repr

/-- The `[redis]` section of the configuration as read by the entry
point: the worker-pool thread count and the connection URL. -/
structure RedisConfig where
  threads : Option Nat
  url : String
deriving DecidableEq, Repr

/-- The configuration struct as consumed by `main`: its `[server]` and
`[redis]` sections plus the HTTP bind address (`server_addr`). -/
structure Config where
  server : ServerConfig
  redis : RedisConfig
  addr : String
deriving DecidableEq, Repr

/-- Modelled from the spec: `Config::default()`, the built-in default
configuration used when no config file is given on the command line
(the `config` module is not under `src/`).  Every optional setting is
absent, so each consumer falls back to its own default (logical CPU
count for the pool, framework defaults for the HTTP server). -/
def Config.defaultConfig : Config :=
  { server := { threads := none, shutdown_timeout := none,
                max_body_size := none },
    redis := { threads := none, url := "redis://127.0.0.1" },
    addr := "127.0.0.1:8023" }

/-- The HTTP methods route registrations use. -/
inductive HttpMethod
  | GET
  | POST
  | PUT
  | PATCH
  | DELETE
deriving DecidableEq, Repr

/-- The handler functions of the `handlers` module that the route table
wires up; each corresponds to one core operation (`queue_create_job` is
enqueue, `queue_next_job` is claim_next, `job_update` is update, and so
on). -/
inductive Handler
  | info_version
  | info_index
  | health
  | tagged_jobs
  | job_status
  | job_output_get
  | job_set_output
  | job_heartbeat
  | job_index
  | job_update
  | job_delete
  | queue_next_job
  | queue_create_job
  | queue_size
  | queue_settings
  | queue_create_or_update
  | queue_delete
  | queue_index
deriving DecidableEq, Repr

/-- One route registration made by `main`: the method (`none` for a
registration made with `r.f(...)`, which handles every method on the
resource), the full path with its scope prefix, the handler, and the
body-size limit explicitly configured on it (`none` when the framework
default applies). -/
structure Registration where
  method : Option HttpMethod
  path : String
  handler : Handler
  limit : Option Nat
deriving DecidableEq, Repr

/-- The route table built by the `server::new` closure in `main`, in
source order, parameterised by the captured `max_body_size` value
(already defaulted to `0` when the setting was absent).  A body-size
limit is attached exactly where the source wraps the handler in
`with_config(..., cfg.limit(max_body_size))`, i.e. on the three
body-accepting registrations and only when `max_body_size > 0`. -/
def appRoutes (max_body_size : Nat) : List Registration :=
  [ { method := none, path := "/info/version", handler := .info_version,
      limit := none },
    { method := none, path := "/info", handler := .info_index,
      limit := none },
    { method := none, path := "/health", handler := .health,
      limit := none },
    { method := some .GET, path := "/tag/{name}", handler := .tagged_jobs,
      limit := none },
    { method := some .GET, path := "/job/{id}/status", handler := .job_status,
      limit := none },
    { method := some .GET, path := "/job/{id}/output",
      handler := .job_output_get, limit := none },
    { method := some .PUT, path := "/job/{id}/output",
      handler := .job_set_output,
      limit := if max_body_size > 0 then some max_body_size else none },
    { method := some .PUT, path := "/job/{id}/heartbeat",
      handler := .job_heartbeat, limit := none },
    { method := some .GET, path := "/job/{id}", handler := .job_index,
      limit := none },
    { method := some .PATCH, path := "/job/{id}", handler := .job_update,
      limit := if max_body_size > 0 then some max_body_size else none },
    { method := some .DELETE, path := "/job/{id}", handler := .job_delete,
      limit := none },
    { method := some .GET, path := "/queue/{name}/job",
      handler := .queue_next_job, limit := none },
    { method := some .POST, path := "/queue/{name}/job",
      handler := .queue_create_job,
      limit := if max_body_size > 0 then some max_body_size else none },
    { method := some .GET, path := "/queue/{name}/size",
      handler := .queue_size, limit := none },
    { method := some .GET, path := "/queue/{name}",
      handler := .queue_settings, limit := none },
    { method := some .PUT, path := "/queue/{name}",
      handler := .queue_create_or_update, limit := none },
    { method := some .DELETE, path := "/queue/{name}",
      handler := .queue_delete, limit := none },
    { method := none, path := "/queue", handler := .queue_index,
      limit := none } ]

/-- The `max_body_size` value `main` computes from the configuration:
the configured value when present, else `0`, where `0` signals that the
framework default should be used. -/
def mainMaxBodySize : Option Nat → Nat
  | some size => size
  | none => 0

/-- Everything `main` has set up by the time it starts the actor
system: the Redis worker-pool size passed to `SyncArbiter::start`, the
pool address handed to each started `MonitorActor`, the pool address
stored in the `ApplicationState` used by every HTTP handler, the route
table, the HTTP thread count, the shutdown timeout after the `as u16`
narrowing cast, the bind address, and the configuration itself.
Worker-pool addresses are represented by integer tokens; `main` creates
a single pool. -/
structure ServerSetup where
  numWorkers : Nat
  monitorPoolAddrs : List Nat
  appStatePoolAddr : Nat
  routes : List Registration
  httpWorkers : Option Nat
  shutdownTimeoutU16 : Option Nat
  bindAddr : String
  config : Config

/-- The observable outcome of running `main`: either the process called
`exit(code)` before anything was started, or it reached `sys.run()`
with the given setup in place. -/
inductive MainResult
  | exited (code : Nat)
  | started (setup : ServerSetup)

/-- The function `parse_config_from_cli_args`: reads the optional
config-file path;
a given path is parsed (modelled by the `parseFile` argument, since
file IO is external), and a parse failure exits with status 1; with no
path the built-in default configuration is used.  The parsed settings
are then validated: a `shutdown_timeout` above `u16::MAX` (65535)
seconds exits with status 1. -/
def parseConfigFromCliArgs (configArg : Option String)
    (parseFile : String → Except String Config) : Except Nat Config :=
  match (match configArg with
         | some path => parseFile path
         | none => .ok Config.defaultConfig) with
  | .error _ => .error 1
  | .ok conf =>
    if (match conf.server.shutdown_timeout with
        | some dur => Nat.blt 65535 dur.secs
        | none => false) then .error 1
    else .ok conf

/-- The setup `main` performs once the configuration is parsed and the
Redis client is open: it starts `num_workers` sync workers (the
configured `redis.threads`, defaulting to the logical CPU count) as
one `SyncArbiter` pool, starts one `MonitorActor` holding that pool's
address, stores the same address in the `ApplicationState` used by the
route handlers, builds the route table with the captured
`max_body_size`, and configures the HTTP server's thread count and
shutdown timeout (the latter narrowed with `as u16`, i.e. modulo
2^16). -/
def startedSetup (config : Config) (numCpus : Nat) : ServerSetup :=
  let num_workers := match config.redis.threads with
                     | some n => n
                     | none => numCpus
  let redis_addr : Nat := 0
  let max_body_size := mainMaxBodySize config.server.max_body_size
  { numWorkers := num_workers,
    monitorPoolAddrs := [redis_addr],
    appStatePoolAddr := redis_addr,
    routes := appRoutes max_body_size,
    httpWorkers := config.server.threads,
    shutdownTimeoutU16 :=
      config.server.shutdown_timeout.map (fun dur => dur.secs % 65536),
    bindAddr := config.addr,
    config := config }

/-- The function `main`: parses the configuration from the CLI
arguments, opens the
Redis client (modelled by the `redisOpen` argument; failure exits with
status 1), then performs `startedSetup` and runs the actor system. -/
def runMain (configArg : Option String)
    (parseFile : String → Except String Config)
    (redisOpen : String → Except String Unit) (numCpus : Nat) : MainResult :=
  match parseConfigFromCliArgs configArg parseFile with
  | .error code => .exited code
  | .ok config =>
    match redisOpen config.redis.url with
    | .error _ => .exited 1
    | .ok _ => .started (startedSetup config numCpus)

/-- Enqueue immediately followed by a claim on the same queue,
returning the claimed job (the round-trip of spec section 8). -/
def enqueueThenClaim (st : Store) (q : String) (payload : String)
    (tags : List String) (now now' : Nat) : Except JobError (Option Job) :=
  match enqueue st q payload tags now with
  | .error e => .error e
  | .ok (_, st') =>
    match claim_next st' q now' with
    | .error e => .error e
    | .ok (j, _) => .ok j

/-- A completed job, used as concrete test data. -/
def jobDone : Job :=
  { queue := "build", status := .completed, payload := "p1", output := none,
    tags := [], created := 0, heartbeat := none, ended := some 3,
    retries := 0, timeout := 10, retryLimit := 2 }

/-- A running job, used as concrete test data. -/
def jobRun : Job :=
  { queue := "build", status := .running, payload := "p2", output := none,
    tags := [], created := 1, heartbeat := some 2, ended := none,
    retries := 0, timeout := 10, retryLimit := 2 }

/-- The settings of the concrete test queue. -/
def queueEx : QueueState :=
  { pending := [], timeout := 10, retryLimit := 2, expiry := 5 }

/-- A concrete store with one (empty) queue, one completed job (ID 1)
and one running job (ID 2). -/
def storeEx : Store :=
  { queues := fun name => if name = "build" then some queueEx else none,
    jobs := fun n =>
      if n = 1 then some jobDone else if n = 2 then some jobRun else none,
    nextId := 3,
    tagIndex := fun _ => [] }

/-- The HTTP operation contract of spec section 6, written down from
the spec's words for comparison with the route table built by `main`:
each listed operation with the core operation (handler) the spec
assigns to it. -/
def specContract : List (HttpMethod × String × Handler) :=
  [ (.POST, "/queue/{name}/job", .queue_create_job),
    (.GET, "/queue/{name}/job", .queue_next_job),
    (.GET, "/queue/{name}", .queue_settings),
    (.PUT, "/queue/{name}", .queue_create_or_update),
    (.DELETE, "/queue/{name}", .queue_delete),
    (.GET, "/queue/{name}/size", .queue_size),
    (.GET, "/queue", .queue_index),
    (.GET, "/job/{id}", .job_index),
    (.PATCH, "/job/{id}", .job_update),
    (.DELETE, "/job/{id}", .job_delete),
    (.GET, "/job/{id}/status", .job_status),
    (.GET, "/job/{id}/output", .job_output_get),
    (.PUT, "/job/{id}/output", .job_set_output),
    (.PUT, "/job/{id}/heartbeat", .job_heartbeat),
    (.GET, "/tag/{name}", .tagged_jobs),
    (.GET, "/info", .info_index),
    (.GET, "/info/version", .info_version),
    (.GET, "/health", .health) ]

/-- Whether a registration serves the operation `(m, path)`: the path
must match and the registration must either be method-specific for `m`
or a default (`r.f`) registration, which serves every method on its
resource. -/
def handlesOp (r : Registration) (m : HttpMethod) (path : String) : Bool :=
  r.path = path && (r.method = none || r.method = some m)

/-- The registrations of a route table that carry an explicit body-size
limit, with that limit. -/
def limitedRoutes (rs : List Registration) :
    List (Option HttpMethod × String × Nat) :=
  rs.filterMap (fun r => r.limit.map (fun s => (r.method, r.path, s)))

/-- A concrete valid configuration, used as test data. -/
def confEx : Config :=
  { server := { threads := some 2, shutdown_timeout := some ⟨30⟩,
                max_body_size := some 1024 },
    redis := { threads := some 7, url := "redis://h" },
    addr := "0.0.0.0:8023" }

/-- A concrete configuration whose shutdown timeout exceeds
`u16::MAX` seconds, used as test data. -/
def confBad : Config :=
  { server := { threads := none, shutdown_timeout := some ⟨70000⟩,
                max_body_size := none },
    redis := { threads := none, url := "redis://h" },
    addr := "0.0.0.0:8023" }

/-- A config-file read that always fails to parse, used as test
data. -/
def parseFileBroken : String → Except String Config :=
  fun _ => .error "unreadable"

/-- A config-file read returning the valid test configuration. -/
def parseFileEx : String → Except String Config :=
  fun _ => .ok confEx

/-- A config-file read returning the over-limit test configuration. -/
def parseFileBad : String → Except String Config :=
  fun _ => .ok confBad

/-- A Redis client constructor that succeeds, used as test data. -/
def redisOpenOk : String → Except String Unit :=
  fun _ => .ok ()

/-- A Redis client constructor that fails, used as test data. -/
def redisOpenErr : String → Except String Unit :=
  fun _ => .error "connection refused"

/-- Iterating the atomic pop takes the first `k` elements of the
pending list. -/
theorem claimSeq_eq_take (k : Nat) (pending : List Nat) :
    claimSeq k pending = pending.take k := by
  induction k generalizing pending with
  | zero => rfl
  | succ k ih =>
    cases pending with
    | nil => rfl
    | cons x xs => simp [claimSeq, popNext, ih]

/-- C1: on a queue holding `N` pending (pairwise-distinct) jobs, any
set of `k` concurrent `claim_next` calls — each one a single atomic pop
of the pending list, so any concurrent execution is an interleaving of
`k` atomic pops, i.e. the sequence `claimSeq k` — returns exactly
`min(N, k)` jobs, the returned job IDs are pairwise distinct, and every
returned ID came from the pending list, so no ID reaches two
callers. -/
theorem claim_next_exactly_once (k : Nat) (pending : List Nat)
    (h : pending.Nodup) :
    (claimSeq k pending).length = min k pending.length ∧
    (claimSeq k pending).Nodup ∧
    ∀ id ∈ claimSeq k pending, id ∈ pending := by
  rw [claimSeq_eq_take]
  refine ⟨List.length_take k pending, (List.take_sublist k pending).nodup h, ?_⟩
  intro id hid
  exact (List.take_sublist k pending).subset hid

/-- Witness for C1 at a concrete queue of 2 jobs and 3 claim calls. -/
theorem claim_next_exactly_once_witness :
    (claimSeq 3 [10, 11]).length = min 3 [10, 11].length ∧
    (claimSeq 3 [10, 11]).Nodup ∧
    ∀ id ∈ claimSeq 3 [10, 11], id ∈ [10, 11] :=
  claim_next_exactly_once 3 [10, 11] (by decide)

/-- C2: a job whose status is terminal (`completed`, `failed`,
`cancelled` or `timed_out`) admits no further status transition: any
`update` request carrying a status change fails with
`InvalidTransition` and leaves the store — in particular the job
record — entirely unchanged. -/
theorem terminal_status_is_sink (st : Store) (id : Nat) (j : Job)
    (req : UpdateRequest) (s : Status) (now : Nat)
    (hj : st.jobs id = some j) (ht : j.status.isTerminal = true)
    (hs : req.status = some s) :
    update st id req now = .error .InvalidTransition ∧
    applyUpdate st id req now = st := by
  have hv : validTransition j.status s = false := by
    revert ht
    cases j.status <;> cases s <;> decide
  have hup : update st id req now = .error .InvalidTransition := by
    simp [update, hj, hs, hv]
  exact ⟨hup, by simp [applyUpdate, hup]⟩

/-- Witness for C2: patching the completed job 1 of the concrete store
back to `running` fails with `InvalidTransition`. -/
theorem terminal_status_is_sink_witness :
    update storeEx 1
        { status := some .running, output := none, tags := none } 9 =
      .error .InvalidTransition ∧
    applyUpdate storeEx 1
        { status := some .running, output := none, tags := none } 9 =
      storeEx :=
  terminal_status_is_sink storeEx 1 jobDone
    { status := some .running, output := none, tags := none }
    .running 9 rfl rfl rfl

/-- C3: a job enqueued with payload `P` onto an existing queue is
returned by the following `claim_next` with the same payload `P`,
status `running`, and a freshly stamped heartbeat timestamp (and all
its other fields as `enqueue` created them). -/
theorem enqueue_claim_round_trip (st : Store) (q P : String)
    (tags : List String) (qs : QueueState) (now now' : Nat)
    (hq : st.queues q = some qs) (hempty : qs.pending = []) :
    enqueueThenClaim st q P tags now now' =
      .ok (some
        { queue := q, status := .running, payload := P, output := none,
          tags := tags, created := now, heartbeat := some now',
          ended := none, retries := 0, timeout := qs.timeout,
          retryLimit := qs.retryLimit }) := by
  simp [enqueueThenClaim, enqueue, hq, claim_next, hempty, popNext]

/-- Witness for C3: enqueue payload "make" on the concrete store's
empty queue at time 5, then claim at time 6. -/
theorem enqueue_claim_round_trip_witness :
    enqueueThenClaim storeEx "build" "make" ["t"] 5 6 =
      .ok (some
        { queue := "build", status := .running, payload := "make",
          output := none, tags := ["t"], created := 5, heartbeat := some 6,
          ended := none, retries := 0, timeout := queueEx.timeout,
          retryLimit := queueEx.retryLimit }) :=
  enqueue_claim_round_trip storeEx "build" "make" ["t"] queueEx 5 6 rfl rfl

/-- One heartbeat on a running job succeeds and rewrites only that
job's record. -/
theorem heartbeat_running (st : Store) (id now : Nat) (j : Job)
    (hj : st.jobs id = some j) (hr : j.status = .running) :
    heartbeat st id now =
      .ok { st with
            jobs := fun n =>
              if n = id then some { j with heartbeat := some now }
              else st.jobs n } := by
  simp [heartbeat, hj, hr]

/-- The last element of `t2 :: rest` with fallback `t` is the last
element of `rest` with fallback `t2`. -/
theorem getLast_getD_cons (t t2 : Nat) (rest : List Nat) :
    ((t2 :: rest).getLast?).getD t = (rest.getLast?).getD t2 := by
  cases rest with
  | nil => rfl
  | cons r rs =>
    rw [List.getLast?_cons_cons]
    cases hlast : (r :: rs).getLast? with
    | none => simp at hlast
    | some x => rfl

/-- A non-empty run of heartbeats on a running job succeeds, sets the
job's last-heartbeat to the final timestamp of the run, and changes
nothing else: not the job's other fields, not other jobs, not the
queues, the tag index or the ID counter. -/
theorem heartbeatN_running (ts : List Nat) : ∀ (t : Nat) (st : Store)
    (id : Nat) (j : Job), st.jobs id = some j → j.status = .running →
    ∃ st', heartbeatN (t :: ts) st id = .ok st' ∧
      st'.jobs id = some { j with heartbeat := some ((ts.getLast?).getD t) } ∧
      st'.queues = st.queues ∧ st'.nextId = st.nextId ∧
      st'.tagIndex = st.tagIndex ∧
      ∀ i, i ≠ id → st'.jobs i = st.jobs i := by
  induction ts with
  | nil =>
    intro t st id j hj hr
    refine ⟨{ st with
              jobs := fun n =>
                if n = id then some { j with heartbeat := some t }
                else st.jobs n }, ?_, ?_, rfl, rfl, rfl, ?_⟩
    · simp only [heartbeatN]
      rw [heartbeat_running st id t j hj hr]
      rfl
    · simp
    · intro i hi
      simp [hi]
  | cons t2 rest ih =>
    intro t st id j hj hr
    have h1 := heartbeat_running st id t j hj hr
    obtain ⟨st', hrun, hjob, hqs, hnext, htags, hframe⟩ :=
      ih t2
        { st with
          jobs := fun n =>
            if n = id then some { j with heartbeat := some t }
            else st.jobs n }
        id { j with heartbeat := some t } (by simp) hr
    refine ⟨st', ?_, ?_, hqs, hnext, htags, ?_⟩
    · simp only [heartbeatN]
      rw [h1]
      exact hrun
    · rw [getLast_getD_cons]
      exact hjob
    · intro i hi
      rw [hframe i hi]
      simp [hi]

/-- C4: heartbeat on an unknown job ID fails with `NotFound`; heartbeat
on a job not in `running` status fails with `InvalidState`; and on a
`running` job, any non-empty sequence of repeated heartbeat calls
succeeds, only advances the last-heartbeat timestamp to the latest
call's time, keeps the status `running`, and changes no other field of
the job (nor any other job or queue). -/
theorem heartbeat_only_advances_timestamp (st : Store) (id now : Nat) :
    (st.jobs id = none → heartbeat st id now = .error .NotFound) ∧
    (∀ j, st.jobs id = some j → j.status ≠ .running →
      heartbeat st id now = .error .InvalidState) ∧
    (∀ j, st.jobs id = some j → j.status = .running →
      ∀ t ts, ∃ st', heartbeatN (t :: ts) st id = .ok st' ∧
        st'.jobs id =
          some { j with heartbeat := some ((ts.getLast?).getD t) } ∧
        st'.queues = st.queues ∧
        ∀ i, i ≠ id → st'.jobs i = st.jobs i) := by
  refine ⟨?_, ?_, ?_⟩
  · intro hnone
    simp [heartbeat, hnone]
  · intro j hj hnr
    simp [heartbeat, hj, hnr]
  · intro j hj hr t ts
    obtain ⟨st', hrun, hjob, hqs, _, _, hframe⟩ :=
      heartbeatN_running ts t st id j hj hr
    exact ⟨st', hrun, hjob, hqs, hframe⟩

/-- Witness for C4 on the concrete store: unknown ID 9 gives
`NotFound`; completed job 1 gives `InvalidState`; three heartbeats on
running job 2 at times 7, 8, 9 set its last-heartbeat to 9 and touch
nothing else. -/
theorem heartbeat_only_advances_timestamp_witness :
    heartbeat storeEx 9 7 = .error .NotFound ∧
    heartbeat storeEx 1 7 = .error .InvalidState ∧
    (∃ st', heartbeatN (7 :: [8, 9]) storeEx 2 = .ok st' ∧
      st'.jobs 2 =
        some { jobRun with heartbeat := some (([8, 9].getLast?).getD 7) } ∧
      st'.queues = storeEx.queues ∧
      ∀ i, i ≠ 2 → st'.jobs i = storeEx.jobs i) :=
  ⟨(heartbeat_only_advances_timestamp storeEx 9 7).1 rfl,
   (heartbeat_only_advances_timestamp storeEx 1 7).2.1 jobDone rfl (by decide),
   (heartbeat_only_advances_timestamp storeEx 2 7).2.2 jobRun rfl rfl 7 [8, 9]⟩

/-- Inversion of a successful `main` run: a setup was started exactly
when the configuration parsed (and validated) and the Redis client
opened, and the setup is `startedSetup` of that configuration. -/
theorem runMain_started_inv (arg : Option String)
    (pf : String → Except String Config) (ro : String → Except String Unit)
    (cpus : Nat) (setup : ServerSetup)
    (h : runMain arg pf ro cpus = .started setup) :
    ∃ conf, parseConfigFromCliArgs arg pf = .ok conf ∧
      setup = startedSetup conf cpus := by
  unfold runMain at h
  split at h
  · simp at h
  · split at h
    · simp at h
    · exact ⟨_, by assumption, (MainResult.started.inj h).symm⟩

/-- C5: the number of worker execution contexts that `main` starts to
serialize storage access is the configured `redis.threads` count when
that setting is present, and the logical CPU count when it is
absent. -/
theorem worker_pool_size (arg : Option String)
    (pf : String → Except String Config) (ro : String → Except String Unit)
    (cpus : Nat) (setup : ServerSetup)
    (h : runMain arg pf ro cpus = .started setup) :
    (∀ n, setup.config.redis.threads = some n → setup.numWorkers = n) ∧
    (setup.config.redis.threads = none → setup.numWorkers = cpus) := by
  obtain ⟨conf, hok, rfl⟩ := runMain_started_inv arg pf ro cpus setup h
  constructor
  · intro n hn
    have hn' : conf.redis.threads = some n := hn
    simp [startedSetup, hn']
  · intro hn
    have hn' : conf.redis.threads = none := hn
    simp [startedSetup, hn']

/-- Witness for C5: a started server with `redis.threads = 7` has 7
workers, and one started from the default configuration (no setting)
has as many workers as CPUs (here 4). -/
theorem worker_pool_size_witness :
    (∀ n, (startedSetup confEx 4).config.redis.threads = some n →
      (startedSetup confEx 4).numWorkers = n) ∧
    ((startedSetup Config.defaultConfig 4).config.redis.threads = none →
      (startedSetup Config.defaultConfig 4).numWorkers = 4) :=
  ⟨(worker_pool_size (some "f") parseFileEx redisOpenOk 4
      (startedSetup confEx 4) rfl).1,
   (worker_pool_size none parseFileEx redisOpenOk 4
      (startedSetup Config.defaultConfig 4) rfl).2⟩

/-- C6: for each HTTP operation of the spec's external-interface
contract, exactly one registration of the route table serves it, and
it is wired to the corresponding handler; and the route table has
exactly as many registrations as the contract has operations, so no
extra operation is registered on those paths.  This holds for every
configured body-size value. -/
theorem routes_match_contract (mbs : Nat) :
    (∀ c ∈ specContract,
      ((appRoutes mbs).filter (fun r => handlesOp r c.1 c.2.1)).map
        Registration.handler = [c.2.2]) ∧
    (appRoutes mbs).length = specContract.length := by
  constructor
  · intro c hc
    fin_cases hc <;> rfl
  · rfl

/-- Witness for C6: the health-check operation of the contract is
served by exactly the health handler. -/
theorem routes_match_contract_witness :
    ((appRoutes 0).filter
        (fun r => handlesOp r HttpMethod.GET "/health")).map
      Registration.handler = [Handler.health] ∧
    (appRoutes 0).length = specContract.length :=
  ⟨(routes_match_contract 0).1 (.GET, "/health", .health) (by decide),
   (routes_match_contract 0).2⟩

/-- C7: `main` starts exactly one Monitor periodic task, and hands it
the same worker-pool address that the `ApplicationState` of the HTTP
handlers holds. -/
theorem single_monitor_shared_pool (arg : Option String)
    (pf : String → Except String Config) (ro : String → Except String Unit)
    (cpus : Nat) (setup : ServerSetup)
    (h : runMain arg pf ro cpus = .started setup) :
    setup.monitorPoolAddrs = [setup.appStatePoolAddr] := by
  obtain ⟨conf, hok, rfl⟩ := runMain_started_inv arg pf ro cpus setup h
  rfl

/-- Witness for C7 at a concrete started server. -/
theorem single_monitor_shared_pool_witness :
    (startedSetup confEx 4).monitorPoolAddrs =
      [(startedSetup confEx 4).appStatePoolAddr] :=
  single_monitor_shared_pool (some "f") parseFileEx redisOpenOk 4
    (startedSetup confEx 4) rfl

/-- The registrations carrying an explicit body-size limit when the
captured `max_body_size` is positive: exactly the three body-accepting
routes, each limited to that value. -/
theorem limitedRoutes_appRoutes_pos (m : Nat) (h : 0 < m) :
    limitedRoutes (appRoutes m) =
      [(some .PUT, "/job/{id}/output", m),
       (some .PATCH, "/job/{id}", m),
       (some .POST, "/queue/{name}/job", m)] := by
  simp [limitedRoutes, appRoutes, h]

/-- C8: the configured per-request body limit is applied to exactly
the three body-accepting routes (`PUT /job/{id}/output`,
`PATCH /job/{id}`, `POST /queue/{name}/job`); when the setting is
absent, or present with value 0, no registration carries an explicit
limit (the framework default applies), so a configured limit of 0 is
not a zero-byte limit. -/
theorem body_limit_routes (mbs : Option Nat) :
    (0 < mainMaxBodySize mbs →
      limitedRoutes (appRoutes (mainMaxBodySize mbs)) =
        [(some .PUT, "/job/{id}/output", mainMaxBodySize mbs),
         (some .PATCH, "/job/{id}", mainMaxBodySize mbs),
         (some .POST, "/queue/{name}/job", mainMaxBodySize mbs)]) ∧
    (mbs = none ∨ mbs = some 0 →
      limitedRoutes (appRoutes (mainMaxBodySize mbs)) = []) := by
  constructor
  · intro h
    exact limitedRoutes_appRoutes_pos (mainMaxBodySize mbs) h
  · intro h
    have h0 : mainMaxBodySize mbs = 0 := by
      rcases h with rfl | rfl <;> rfl
    rw [h0]
    rfl

/-- Witness for C8: a configured limit of 5 is applied to exactly the
three body routes; an absent setting applies no limit. -/
theorem body_limit_routes_witness :
    limitedRoutes (appRoutes (mainMaxBodySize (some 5))) =
      [(some .PUT, "/job/{id}/output", mainMaxBodySize (some 5)),
       (some .PATCH, "/job/{id}", mainMaxBodySize (some 5)),
       (some .POST, "/queue/{name}/job", mainMaxBodySize (some 5))] ∧
    limitedRoutes (appRoutes (mainMaxBodySize none)) = [] :=
  ⟨(body_limit_routes (some 5)).1 (by decide),
   (body_limit_routes none).2 (Or.inl rfl)⟩

/-- Any configuration accepted by `parse_config_from_cli_args` has its
shutdown timeout bounded by `u16::MAX` seconds. -/
theorem accepted_shutdown_le (arg : Option String)
    (pf : String → Except String Config) (conf : Config)
    (hok : parseConfigFromCliArgs arg pf = .ok conf) (dur : Duration)
    (hd : conf.server.shutdown_timeout = some dur) : dur.secs ≤ 65535 := by
  unfold parseConfigFromCliArgs at hok
  split at hok
  · simp at hok
  · split at hok
    · simp at hok
    · rename_i hcond
      obtain rfl : _ = conf := Except.ok.inj hok
      rw [hd] at hcond
      simpa [Nat.blt_eq, Nat.not_lt] using hcond

/-- C9: every configuration accepted at startup has
`shutdown_timeout ≤ 65535` seconds, so the `as u16` narrowing (modulo
2^16) of the timeout when configuring the HTTP server never changes
the value; and a configuration with a larger timeout makes the process
exit with status 1 before the server starts. -/
theorem shutdown_timeout_no_truncation (arg : Option String)
    (pf : String → Except String Config) (ro : String → Except String Unit)
    (cpus : Nat) :
    (∀ conf, parseConfigFromCliArgs arg pf = .ok conf →
      ∀ dur, conf.server.shutdown_timeout = some dur →
        dur.secs ≤ 65535 ∧ dur.secs % 65536 = dur.secs) ∧
    (∀ setup, runMain arg pf ro cpus = .started setup →
      setup.shutdownTimeoutU16 =
        setup.config.server.shutdown_timeout.map (fun dur => dur.secs)) ∧
    (∀ p conf dur, arg = some p → pf p = .ok conf →
      conf.server.shutdown_timeout = some dur → 65535 < dur.secs →
      runMain arg pf ro cpus = .exited 1) := by
  refine ⟨?_, ?_, ?_⟩
  · intro conf hok dur hd
    have hle := accepted_shutdown_le arg pf conf hok dur hd
    exact ⟨hle, Nat.mod_eq_of_lt (Nat.lt_of_le_of_lt hle (by norm_num))⟩
  · intro setup h
    obtain ⟨conf, hok, rfl⟩ := runMain_started_inv arg pf ro cpus setup h
    have hcfg : (startedSetup conf cpus).config = conf := rfl
    rw [hcfg]
    cases hdt : conf.server.shutdown_timeout with
    | none => simp [startedSetup, hdt]
    | some dur =>
      have hle := accepted_shutdown_le arg pf conf hok dur hdt
      have hlt : dur.secs < 65536 := Nat.lt_of_le_of_lt hle (by norm_num)
      simp [startedSetup, hdt, Nat.mod_eq_of_lt hlt]
  · intro p conf dur harg hpf hd hgt
    subst harg
    have hblt : Nat.blt 65535 dur.secs = true := by
      simpa [Nat.blt_eq] using hgt
    simp [runMain, parseConfigFromCliArgs, hpf, hd, hblt]

/-- Witness for C9: the accepted test configuration's 30-second
timeout survives the narrowing unchanged, and the 70000-second test
configuration makes startup exit with status 1. -/
theorem shutdown_timeout_no_truncation_witness :
    ((30 : Nat) ≤ 65535 ∧ (30 : Nat) % 65536 = 30) ∧
    runMain (some "f") parseFileBad redisOpenOk 4 = .exited 1 :=
  ⟨(shutdown_timeout_no_truncation (some "f") parseFileEx redisOpenOk 4).1
      confEx rfl ⟨30⟩ rfl,
   (shutdown_timeout_no_truncation (some "f") parseFileBad redisOpenOk 4).2.2
      "f" confBad ⟨70000⟩ rfl rfl rfl (by norm_num)⟩

/-- C10: a config file that fails to parse, or a Redis client that
fails to initialise, makes the process exit with status 1 before any
worker, Monitor or HTTP server is started (the run never reaches the
`started` state); and with no config-file argument the built-in
default configuration is used instead of failing. -/
theorem startup_error_handling (p e : String)
    (pf : String → Except String Config) (ro : String → Except String Unit)
    (cpus : Nat) :
    (pf p = .error e → runMain (some p) pf ro cpus = .exited 1) ∧
    (∀ conf, parseConfigFromCliArgs (some p) pf = .ok conf →
      ro conf.redis.url = .error e →
      runMain (some p) pf ro cpus = .exited 1) ∧
    (∀ setup, runMain none pf ro cpus = .started setup →
      setup.config = Config.defaultConfig) ∧
    (ro Config.defaultConfig.redis.url = .ok () →
      runMain none pf ro cpus =
        .started (startedSetup Config.defaultConfig cpus)) := by
  refine ⟨?_, ?_, ?_, ?_⟩
  · intro hperr
    simp [runMain, parseConfigFromCliArgs, hperr]
  · intro conf hok hroerr
    simp [runMain, hok, hroerr]
  · intro setup h
    obtain ⟨conf, hok, rfl⟩ := runMain_started_inv none pf ro cpus setup h
    obtain rfl : Config.defaultConfig = conf := Except.ok.inj hok
    rfl
  · intro hro
    simp only [Config.defaultConfig] at hro
    simp [runMain, parseConfigFromCliArgs, Config.defaultConfig, hro]

/-- Witness for C10: a broken config file exits with 1; a failing
Redis client exits with 1; a run without a config argument starts with
the default configuration. -/
theorem startup_error_handling_witness :
    runMain (some "f") parseFileBroken redisOpenOk 4 = .exited 1 ∧
    runMain (some "f") parseFileEx redisOpenErr 4 = .exited 1 ∧
    (startedSetup Config.defaultConfig 4).config = Config.defaultConfig ∧
    runMain none parseFileEx redisOpenOk 4 =
      .started (startedSetup Config.defaultConfig 4) :=
  ⟨(startup_error_handling "f" "unreadable" parseFileBroken redisOpenOk 4).1
      rfl,
   (startup_error_handling "f" "connection refused" parseFileEx redisOpenErr
      4).2.1 confEx rfl rfl,
   (startup_error_handling "f" "e" parseFileEx redisOpenOk 4).2.2.1
      (startedSetup Config.defaultConfig 4) rfl,
   (startup_error_handling "f" "e" parseFileEx redisOpenOk 4).2.2.2 rfl⟩

end Ocypod
